import Mathlib

/-!
Shallow embedding of the coordination core of the mr-x-chase repository:
the row types generated from the Supabase schema and the operational logic
of the GameBoard component (src/src/integrations/supabase/types.ts) —
handleMove, startGame, the roster ordering, the active-player derivation
and the reveal schedule.

Modelling conventions:
* Row ids and timestamps are strings, as in the schema.  Database-generated
  columns that the code never writes or reads (the id and created_at of a
  freshly inserted move row) are omitted from the Move record.
* Ticket counters are integers (the code compares them with <= 0 and writes
  count - 1), positions and turn counters are naturals.
* The store is a snapshot holding the one games row the component works on,
  the players rows of that game and the moves log.  A fetch returns the
  current snapshot; the fetched players list is the list as the store
  returns it for order(created_at, ascending).
* The client-side sort at line 485 uses the comparator
  (a, b) => a.created_at.localeCompare(b.created_at) and the (since
  ES2019 mandatory) stability of Array.prototype.sort; it is modelled as a
  stable insertion sort by the lexicographic order on the timestamp
  strings, which coincides with localeCompare on the ISO timestamps the
  store produces.
* The three store writes of handleMove can each independently fail
  (StoreUnavailable); a WriteFailures record injects those outcomes.  The
  supabase client surfaces insert/update failures in the returned error
  field without throwing, and handleMove inspects that field only for the
  games-table update (line 451), so a failed moves insert or players
  update leaves the store unchanged and execution continues.
-/

namespace MrXChase

/-- Enum game_status from Database.public.Enums (types.ts line 159). -/
inductive GameStatus
  | waiting
  | in_progress
  | finished
  deriving DecidableEq

/-- Enum player_role from Database.public.Enums (types.ts line 160). -/
inductive PlayerRole
  | mr_x
  | detective
  deriving DecidableEq

/-- Enum transport_type from Database.public.Enums (types.ts line 161). -/
inductive TransportType
  | taxi
  | bus
  | underground
  | black
  deriving DecidableEq

/-- games Row (types.ts lines 18 to 27). -/
structure Game where
  created_at : String
  current_turn : Nat
  id : String
  mr_x_player : Option String
  name : String
  status : GameStatus
  updated_at : String
  winner : Option String
  deriving DecidableEq

/-- players Row (types.ts lines 102 to 114). -/
structure Player where
  black_tickets : Int
  bus_tickets : Int
  created_at : String
  current_position : Nat
  game_id : String
  id : String
  is_active : Bool
  role : PlayerRole
  taxi_tickets : Int
  underground_tickets : Int
  user_id : String
  deriving DecidableEq

/-- moves Row (types.ts lines 51 to 61), without the database-generated id
and created_at columns, which handleMove neither supplies nor reads. -/
structure Move where
  from_position : Nat
  game_id : String
  player_id : String
  revealed : Bool
  to_position : Nat
  transport : TransportType
  turn_number : Nat
  deriving DecidableEq

/-- The authoritative remote state the component works against: the games
row with the id the component was given, that game's players rows and its
append-only moves log. -/
structure StoreState where
  game : Game
  players : List Player
  moves : List Move
  deriving DecidableEq

/-- Field access player[transport + "_tickets"] (line 422). -/
def ticketCount (p : Player) (k : TransportType) : Int :=
  match k with
  | .taxi => p.taxi_tickets
  | .bus => p.bus_tickets
  | .underground => p.underground_tickets
  | .black => p.black_tickets

/-- The update patch entry [ticketField]: n (line 445). -/
def setTicket (p : Player) (k : TransportType) (n : Int) : Player :=
  match k with
  | .taxi => { p with taxi_tickets := n }
  | .bus => { p with bus_tickets := n }
  | .underground => { p with underground_tickets := n }
  | .black => { p with black_tickets := n }

/-- The reveal-schedule expression the code repeats at lines 439 and 495:
current_turn % 3 === 0 || current_turn === 1. -/
def isRevealTurn (t : Nat) : Bool :=
  decide (t % 3 = 0) || decide (t = 1)

/-- Modelled from the spec contract in section 4.3, for comparison with the
schedule the code computes: true when turn_number == 1 or
turn_number mod 3 == 0, false otherwise. -/
def isRevealTurnSpec (t : Nat) : Bool :=
  decide (t = 1) || decide (t % 3 = 0)

/-- Line 495: const isMrXRevealTurn = game.current_turn % 3 === 0 ||
game.current_turn === 1. -/
def isMrXRevealTurn (game : Game) : Bool :=
  decide (game.current_turn % 3 = 0) || decide (game.current_turn = 1)

/-- Lines 413 to 414 and 486 to 487: the active player is
roster[current_turn % roster.length]; none models the undefined produced
by indexing an empty array. -/
def activePlayer (roster : List Player) (current_turn : Nat) : Option Player :=
  roster.get? (current_turn % roster.length)

/-- Lexicographic comparison of code-point sequences. -/
def lexLe : List Nat → List Nat → Bool
  | [], _ => true
  | _ :: _, [] => false
  | a :: as, b :: bs =>
    if a < b then true else if b < a then false else lexLe as bs

/-- The comparator a.localeCompare(b) <= 0 of line 485, modelled as
code-point order, with which the default collation agrees on the ISO
timestamp strings the store produces. -/
def createdAtLe (a b : String) : Bool :=
  lexLe (a.data.map Char.toNat) (b.data.map Char.toNat)

/-- The stable insertion step of the client-side sort by created_at. -/
def insertByCreatedAt (p : Player) : List Player → List Player
  | [] => [p]
  | q :: qs =>
    if createdAtLe p.created_at q.created_at then p :: q :: qs
    else q :: insertByCreatedAt p qs

/-- Line 485: [...players].sort((a, b) =>
a.created_at.localeCompare(b.created_at)), modelled as a stable sort by
the timestamp strings. -/
def sortByCreatedAt : List Player → List Player
  | [] => []
  | p :: ps => insertByCreatedAt p (sortByCreatedAt ps)

/-- Pairwise created_at-sortedness: the ordering contract of a players
fetch with order(created_at, ascending) (lines 342 and 404). -/
def sortedByCreatedAt : List Player → Bool
  | [] => true
  | [_] => true
  | p :: q :: r => createdAtLe p.created_at q.created_at && sortedByCreatedAt (q :: r)

/-- The roster the UI turn gating works on (line 485). -/
def uiSortedPlayers (players : List Player) : List Player :=
  sortByCreatedAt players

/-- The roster the commit-path re-validation works on (line 412):
const sortedPlayers = [...latestPlayers] — the freshly fetched list as
returned by the store ordering, copied but not re-sorted. -/
def commitPathRoster (latestPlayers : List Player) : List Player :=
  latestPlayers

/-- The snapshot the two fetches of handleMove step 1 return (lines 386 to
410): the games row and the created_at-ordered players rows. -/
structure FetchedState where
  latestGame : Game
  latestPlayers : List Player
  deriving DecidableEq

/-- Reading the fetched snapshot off the current store state. -/
def fetchState (s : StoreState) : FetchedState :=
  { latestGame := s.game, latestPlayers := s.players }

/-- Failure injection for the three store writes of handleMove. -/
structure WriteFailures where
  insertFails : Bool
  playerUpdateFails : Bool
  gameUpdateFails : Bool
  deriving DecidableEq

/-- All three writes succeed. -/
def noFailures : WriteFailures :=
  { insertFails := false, playerUpdateFails := false, gameUpdateFails := false }

/-- How handleMove ends, as observable by the user. -/
inductive MoveOutcome
  | committed
  | notYourTurn
  | insufficientTickets
  | storeError
  | clientError
  deriving DecidableEq

/-- Result of a handleMove run: the outcome, the store after the run and
whether the transport selection was restored (setSelectedTransport back to
the saved tempTransport). -/
structure MoveResult where
  outcome : MoveOutcome
  store : StoreState
  selectionRestored : Bool
  deriving DecidableEq

/-- The write sequence of handleMove once both checks passed (lines 432 to
458): (a) insert the move row built from the cached currentPlayer and the
fetched turn, (b) update the players row matching currentPlayer.id with the
new position and cachedTickets - 1, (c) update the games row matching
gameId — and only gameId — to currentTurn + 1.  Only the error of write (c)
is inspected; a failing (c) throws into the catch block, which restores the
selection. -/
def commitWrites (gameId : String) (currentPlayer : Player) (tempTransport : TransportType)
    (toPosition : Nat) (currentTickets : Int) (currentTurn : Nat)
    (s : StoreState) (wf : WriteFailures) : MoveResult :=
  let mv : Move :=
    { game_id := gameId
      player_id := currentPlayer.id
      from_position := currentPlayer.current_position
      to_position := toPosition
      transport := tempTransport
      turn_number := currentTurn
      revealed := decide (currentPlayer.role = PlayerRole.mr_x) && isRevealTurn currentTurn }
  let s1 := if wf.insertFails then s else { s with moves := s.moves ++ [mv] }
  let s2 :=
    if wf.playerUpdateFails then s1
    else
      { s1 with
        players := s1.players.map fun p =>
          if p.id = currentPlayer.id then
            setTicket { p with current_position := toPosition } tempTransport (currentTickets - 1)
          else p }
  if wf.gameUpdateFails then
    { outcome := .storeError, store := s2, selectionRestored := true }
  else
    { outcome := .committed,
      store :=
        if s2.game.id = gameId then
          { s2 with game := { s2.game with current_turn := currentTurn + 1 } }
        else s2,
      selectionRestored := false }

/-- handleMove after its step-1 fetches returned the snapshot f (lines 412
to 467): recompute the active player from the fetched roster and fetched
turn; reject notYourTurn without restoring the selection; check the ticket
count read from the locally cached currentPlayer and reject
insufficientTickets with the selection restored; otherwise run the three
writes.  The clientError arm models the TypeError thrown by reading .id of
undefined when the fetched roster is empty, which the catch block turns
into a restored-selection failure. -/
def handleMoveCommit (gameId : String) (currentPlayer : Player) (tempTransport : TransportType)
    (toPosition : Nat) (f : FetchedState) (s : StoreState) (wf : WriteFailures) : MoveResult :=
  match activePlayer (commitPathRoster f.latestPlayers) f.latestGame.current_turn with
  | none => { outcome := .clientError, store := s, selectionRestored := true }
  | some active =>
    if currentPlayer.id ≠ active.id then
      { outcome := .notYourTurn, store := s, selectionRestored := false }
    else if ticketCount currentPlayer tempTransport ≤ 0 then
      { outcome := .insufficientTickets, store := s, selectionRestored := true }
    else
      commitWrites gameId currentPlayer tempTransport toPosition
        (ticketCount currentPlayer tempTransport) f.latestGame.current_turn s wf

/-- A full sequential handleMove run (lines 374 to 468): the step-1 fetches
see the same store the writes are applied to. -/
def handleMove (gameId : String) (currentPlayer : Player) (tempTransport : TransportType)
    (toPosition : Nat) (s : StoreState) (wf : WriteFailures) : MoveResult :=
  handleMoveCommit gameId currentPlayer tempTransport toPosition (fetchState s) s wf

/-- How startGame ends. -/
inductive StartOutcome
  | started
  | tooFewPlayers
  | unavailable
  deriving DecidableEq

/-- Result of a start-game attempt. -/
structure StartResult where
  outcome : StartOutcome
  store : StoreState
  deriving DecidableEq

/-- startGame (lines 470 to 478): reject when the cached roster has fewer
than 2 players, otherwise set the games row with the given id to
in_progress. -/
def startGame (gameId : String) (players : List Player) (s : StoreState) : StartResult :=
  if players.length < 2 then { outcome := .tooFewPlayers, store := s }
  else
    { outcome := .started,
      store :=
        if s.game.id = gameId then { s with game := { s.game with status := .in_progress } }
        else s }

/-- Lines 537 to 541: the Start Game button is rendered only while the
cached game is waiting and the requesting user is the designated
mr_x_player. -/
def startButtonShown (game : Game) (userId : String) : Bool :=
  decide (game.status = GameStatus.waiting) && decide (game.mr_x_player = some userId)

/-- The start-game operation as reachable through the UI: startGame runs
only when the button is shown. -/
def startGameAction (gameId : String) (userId : String) (cachedGame : Game)
    (players : List Player) (s : StoreState) : StartResult :=
  if startButtonShown cachedGame userId then startGame gameId players s
  else { outcome := .unavailable, store := s }

/-! Concrete fixtures used by witnesses and counterexamples. -/

/-- A concrete evader: Mr. X at position 10 with 4 taxi tickets. -/
def playerA : Player :=
  { black_tickets := 5, bus_tickets := 3, created_at := "2024-05-01T10:00:00",
    current_position := 10, game_id := "g1", id := "A", is_active := true,
    role := .mr_x, taxi_tickets := 4, underground_tickets := 3, user_id := "uA" }

/-- A concrete seeker: a detective at position 20 with no black tickets. -/
def playerB : Player :=
  { black_tickets := 0, bus_tickets := 8, created_at := "2024-05-01T10:00:05",
    current_position := 20, game_id := "g1", id := "B", is_active := true,
    role := .detective, taxi_tickets := 10, underground_tickets := 4, user_id := "uB" }

/-- A concrete in-progress game at turn 0. -/
def game0 : Game :=
  { created_at := "2024-05-01T09:59:00", current_turn := 0, id := "g1",
    mr_x_player := some "uA", name := "chase", status := .in_progress,
    updated_at := "2024-05-01T09:59:00", winner := none }

/-- The same game at turn 4. -/
def gameT4 : Game := { game0 with current_turn := 4 }

/-- Store snapshot at turn 0 with the two players and an empty move log. -/
def st0 : StoreState := { game := game0, players := [playerA, playerB], moves := [] }

/-- Store snapshot at turn 4; with a 2-player roster the active player is
roster[4 % 2] = playerA. -/
def st4 : StoreState := { game := gameT4, players := [playerA, playerB], moves := [] }

/-- Store snapshot at turn 1; the active player is roster[1 % 2] = playerB. -/
def st1 : StoreState :=
  { game := { game0 with current_turn := 1 }, players := [playerA, playerB], moves := [] }

/-- First of two racing commits, both built from the snapshot fetched at
turn 4. -/
def c2FirstResult : MoveResult :=
  handleMoveCommit "g1" playerA .taxi 15 (fetchState st4) st4 noFailures

/-- Second racing commit: same stale fetched snapshot, applied to the store
the first commit left behind. -/
def c2SecondResult : MoveResult :=
  handleMoveCommit "g1" playerA .taxi 16 (fetchState st4) c2FirstResult.store noFailures

/-- The authoritative players row for player A with zero taxi tickets. -/
def c3StoreRowA : Player := { playerA with taxi_tickets := 0 }

/-- Store in which the fresh taxi count of player A is 0 while the cached
currentPlayer record still shows 4. -/
def c3Store : StoreState := { game := game0, players := [c3StoreRowA, playerB], moves := [] }

/-- handleMove run with stale cached tickets: cached playerA (4 taxi
tickets) against a store whose row A has 0. -/
def c3Result : MoveResult := handleMove "g1" playerA .taxi 15 c3Store noFailures

/-- Failure injection for the partial-commit scenario: the moves insert and
players update succeed, the games update fails. -/
def c4Failures : WriteFailures :=
  { insertFails := false, playerUpdateFails := false, gameUpdateFails := true }

/-- handleMove run in which only the final games-table write fails. -/
def c4Result : MoveResult := handleMove "g1" playerA .taxi 15 st4 c4Failures

/-- Authoritative store at commit time for the stale-snapshot scenario:
another commit has meanwhile moved player A to 15 and advanced the game to
turn 5, while the committing client still holds the turn-4 snapshot and a
cached currentPlayer at position 10. -/
def c5Store : StoreState :=
  { game := { game0 with current_turn := 5 },
    players := [{ playerA with current_position := 15, taxi_tickets := 3 }, playerB],
    moves := [] }

/-- Commit built from the stale turn-4 snapshot against the advanced store. -/
def c5Result : MoveResult :=
  handleMoveCommit "g1" playerA .taxi 16 (fetchState st4) c5Store noFailures

/-- The game while still waiting to start. -/
def gameWaiting : Game := { game0 with status := .waiting }

/-- Store snapshot of the waiting game with a full 2-player roster. -/
def stWaiting : StoreState :=
  { game := gameWaiting, players := [playerA, playerB], moves := [] }

/-- Failure injection in which the first two writes fail and the games
update succeeds. -/
def c10Failures : WriteFailures :=
  { insertFails := true, playerUpdateFails := true, gameUpdateFails := false }

/-! Helper lemmas about the ticket field accessors. -/

theorem ticketCount_setTicket_same (p : Player) (k : TransportType) (n : Int) :
    ticketCount (setTicket p k n) k = n := by
  cases k <;> rfl

theorem ticketCount_setTicket_ne (p : Player) (k k2 : TransportType) (n : Int)
    (h : k2 ≠ k) : ticketCount (setTicket p k n) k2 = ticketCount p k2 := by
  cases k <;> cases k2 <;> first | rfl | exact absurd rfl h

theorem setTicket_id (p : Player) (k : TransportType) (n : Int) :
    (setTicket p k n).id = p.id := by
  cases k <;> rfl

theorem ticketCount_setPosition (p : Player) (x : Nat) (k : TransportType) :
    ticketCount { p with current_position := x } k = ticketCount p k := by
  cases k <;> rfl

/-- Once the fetched roster yields an active player whose id matches the
cached currentPlayer and the cached ticket count is positive, handleMove
reduces to its write sequence. -/
theorem handleMoveCommit_validated (gameId : String) (p a : Player) (k : TransportType)
    (toPos : Nat) (f : FetchedState) (s : StoreState) (wf : WriteFailures)
    (ha : activePlayer (commitPathRoster f.latestPlayers) f.latestGame.current_turn = some a)
    (hid : p.id = a.id) (ht : 0 < ticketCount p k) :
    handleMoveCommit gameId p k toPos f s wf =
      commitWrites gameId p k toPos (ticketCount p k) f.latestGame.current_turn s wf := by
  unfold handleMoveCommit
  rw [ha]
  simp [hid, not_le.mpr ht]

/-- A client-side stable sort of a list that already satisfies the fetch
ordering contract is the identity. -/
theorem sortByCreatedAt_of_sorted :
    ∀ l : List Player, sortedByCreatedAt l = true → sortByCreatedAt l = l := by
  intro l h
  induction l with
  | nil => rfl
  | cons p ps ih =>
    cases ps with
    | nil => rfl
    | cons q r =>
      have h12 : createdAtLe p.created_at q.created_at = true ∧
          sortedByCreatedAt (q :: r) = true := by
        simpa [sortedByCreatedAt, Bool.and_eq_true] using h
      have hrec : sortByCreatedAt (q :: r) = q :: r := ih h12.2
      show insertByCreatedAt p (sortByCreatedAt (q :: r)) = p :: q :: r
      rw [hrec]
      unfold insertByCreatedAt
      rw [if_pos h12.1]

/-- C1 counterexample: the claim states that turn number 0 is never a
reveal turn, i.e. isRevealTurn 0 = false; but the schedule computed by the
code at lines 439 and 495 is true at 0, because 0 % 3 = 0. -/
theorem isRevealTurn_zero_counterexample : isRevealTurn 0 = true := by decide

/-- C1 (amended): for every turn number t, the schedule the code computes
agrees with the spec formula — isRevealTurn t is true exactly when t = 1
or t mod 3 = 0 — but turn number 0 IS a reveal turn (0 mod 3 = 0); the
line-495 viewer flag computes the same schedule from the current turn; and
a committed move carries revealed = isRevealTurn (turn at commit time) AND
the mover role being mr_x, with turn_number the freshly fetched turn. -/
theorem revealSchedule_amended (gameId : String) (p a : Player) (k : TransportType)
    (toPos : Nat) (f : FetchedState) (s : StoreState)
    (ha : activePlayer (commitPathRoster f.latestPlayers) f.latestGame.current_turn = some a)
    (hid : p.id = a.id) (ht : 0 < ticketCount p k) :
    (∀ t, isRevealTurn t = isRevealTurnSpec t) ∧
    isRevealTurn 0 = true ∧
    (∀ g, isMrXRevealTurn g = isRevealTurn g.current_turn) ∧
    (handleMoveCommit gameId p k toPos f s noFailures).store.moves =
      s.moves ++
        [{ game_id := gameId, player_id := p.id, from_position := p.current_position,
           to_position := toPos, transport := k,
           turn_number := f.latestGame.current_turn,
           revealed := isRevealTurn f.latestGame.current_turn &&
             decide (p.role = PlayerRole.mr_x) }] := by
  refine ⟨?_, by decide, fun g => rfl, ?_⟩
  · intro t
    unfold isRevealTurn isRevealTurnSpec
    exact Bool.or_comm _ _
  · rw [handleMoveCommit_validated gameId p a k toPos f s noFailures ha hid ht]
    unfold commitWrites
    simp only [noFailures, if_false, Bool.false_eq_true, ite_false]
    split <;> simp [Bool.and_comm]

/-- C1 witness: a concrete commit by the evader at turn 0; the committed
move is stored with revealed = true, since 0 is a reveal turn. -/
theorem revealSchedule_amended_witness :
    activePlayer (commitPathRoster (fetchState st0).latestPlayers)
        (fetchState st0).latestGame.current_turn = some playerA ∧
    playerA.id = playerA.id ∧
    0 < ticketCount playerA TransportType.taxi ∧
    ((∀ t, isRevealTurn t = isRevealTurnSpec t) ∧
     isRevealTurn 0 = true ∧
     (∀ g, isMrXRevealTurn g = isRevealTurn g.current_turn) ∧
     (handleMoveCommit "g1" playerA TransportType.taxi 15 (fetchState st0) st0
         noFailures).store.moves =
       st0.moves ++
         [{ game_id := "g1", player_id := playerA.id,
            from_position := playerA.current_position, to_position := 15,
            transport := TransportType.taxi,
            turn_number := (fetchState st0).latestGame.current_turn,
            revealed := isRevealTurn (fetchState st0).latestGame.current_turn &&
              decide (playerA.role = PlayerRole.mr_x) }]) :=
  ⟨by decide, rfl, by decide,
   revealSchedule_amended "g1" playerA playerA TransportType.taxi 15 (fetchState st0) st0
     (by decide) rfl (by decide)⟩

/-- C6: on a players list satisfying the created_at ordering contract of
the fetch, the UI roster (client-side stable sort, line 485) and the
commit-path roster (the fetched list copied without re-sorting, line 412)
are the identical join-time-ordered sequence, and hence agree on the
active player for every turn counter value. -/
theorem rosterOrdering_agree (l : List Player) (h : sortedByCreatedAt l = true) :
    uiSortedPlayers l = commitPathRoster l ∧
    ∀ t : Nat, activePlayer (uiSortedPlayers l) t = activePlayer (commitPathRoster l) t := by
  have hs : sortByCreatedAt l = l := sortByCreatedAt_of_sorted l h
  exact ⟨hs, fun t => by rw [show uiSortedPlayers l = commitPathRoster l from hs]⟩

/-- C6 witness: the two-player fixture roster, as the store returns it. -/
theorem rosterOrdering_agree_witness :
    sortedByCreatedAt [playerA, playerB] = true ∧
    (uiSortedPlayers [playerA, playerB] = commitPathRoster [playerA, playerB] ∧
     ∀ t : Nat, activePlayer (uiSortedPlayers [playerA, playerB]) t =
       activePlayer (commitPathRoster [playerA, playerB]) t) :=
  ⟨by decide, rosterOrdering_agree [playerA, playerB] (by decide)⟩

/-- C7: on a nonempty roster the active-player computation is total and
deterministic: the index current_turn % roster.length always lies below
roster.length and activePlayer returns exactly the roster entry at that
index; on the empty roster — a precondition violation — it yields none. -/
theorem activePlayer_total_correct (roster : List Player) (t : Nat) (h : roster ≠ []) :
    ∃ hlt : t % roster.length < roster.length,
      activePlayer roster t = some (roster.get ⟨t % roster.length, hlt⟩) ∧
      activePlayer ([] : List Player) t = none := by
  have hpos : 0 < roster.length := List.length_pos.mpr h
  refine ⟨Nat.mod_lt t hpos, ?_, List.get?_nil⟩
  unfold activePlayer
  exact List.get?_eq_get _

/-- C7 witness: the two-player fixture roster at turn counter 5 yields the
entry at index 5 % 2 = 1. -/
theorem activePlayer_total_correct_witness :
    [playerA, playerB] ≠ ([] : List Player) ∧
    ∃ hlt : 5 % ([playerA, playerB] : List Player).length <
        ([playerA, playerB] : List Player).length,
      activePlayer [playerA, playerB] 5 =
        some (([playerA, playerB] : List Player).get
          ⟨5 % ([playerA, playerB] : List Player).length, hlt⟩) ∧
      activePlayer ([] : List Player) 5 = none :=
  ⟨by decide, activePlayer_total_correct [playerA, playerB] 5 (by decide)⟩

/-- C2 failing run (code bug): the games-table update of lines 451 to 456
filters only on the game id, never on current_turn still matching the
value read in step 1.  Two commits racing from the same stale turn-4
snapshot therefore BOTH report success: the second is not rejected as
RaceLost, the move log gains two moves with turn_number 4, and the turn
counter still only reaches 5. -/
theorem turnAdvanceUnconditional_bug :
    c2FirstResult.outcome = MoveOutcome.committed ∧
    c2FirstResult.store.game.current_turn = 5 ∧
    c2SecondResult.outcome = MoveOutcome.committed ∧
    c2SecondResult.store.game.current_turn = 5 ∧
    c2SecondResult.store.moves.map Move.turn_number = [4, 4] := by
  decide

/-- C3 failing run (code bug): the ticket check of lines 422 to 429 reads
the count from the locally cached currentPlayer, not from the freshly
fetched players records used for the turn check: with a fresh taxi count
of 0 but a cached count of 4 the move is accepted instead of being
rejected with InsufficientTickets, and the stored row is even rewritten to
4 - 1 = 3 tickets. -/
theorem ticketCheckUsesCachedState_bug :
    ticketCount c3StoreRowA TransportType.taxi = 0 ∧
    (c3Store.players.map fun q => ticketCount q TransportType.taxi) = [0, 10] ∧
    ticketCount playerA TransportType.taxi = 4 ∧
    c3Result.outcome = MoveOutcome.committed ∧
    (c3Result.store.players.map fun q => ticketCount q TransportType.taxi) = [3, 10] := by
  decide

/-- C4 failing run (code bug): when the final games-table update fails
after validation passed, the already performed moves insert and players
update stay observably committed while the turn does not advance — a
partial subset of the three effects, which the claim forbids. -/
theorem nonAtomicCommit_bug :
    c4Result.outcome = MoveOutcome.storeError ∧
    c4Result.store.moves.length = 1 ∧
    c4Result.store.players.map Player.current_position = [15, 20] ∧
    st4.players.map Player.current_position = [10, 20] ∧
    c4Result.store.game.current_turn = 4 ∧
    st4.game.current_turn = 4 := by
  decide

/-- C5 failing run (code bug): a commit built from a stale snapshot records
from_position from the cached currentPlayer (10) and turn_number from the
stale fetch (4), while at the instant of commit the authoritative position
of the mover is 15 and the authoritative current_turn is 5. -/
theorem staleSnapshotMoveFields_bug :
    c5Result.outcome = MoveOutcome.committed ∧
    c5Result.store.moves.map Move.from_position = [10] ∧
    c5Result.store.moves.map Move.turn_number = [4] ∧
    c5Store.players.map Player.current_position = [15, 20] ∧
    c5Store.game.current_turn = 5 ∧
    (10 : Nat) ≠ 15 ∧ (4 : Nat) ≠ 5 := by
  decide

/-- C8: with the cached currentPlayer in sync with the authoritative
players rows and the turn check passing, ticket debiting is safe: a zero
count is always rejected with InsufficientTickets, leaving the store
untouched and the selection restored, and a successful commit decrements
exactly the chosen ticket kind by 1 from a positive count, never below 0,
leaving every other kind unchanged. -/
theorem ticketDebit_safe (gameId : String) (p a : Player) (k : TransportType)
    (toPos : Nat) (s : StoreState)
    (hsync : ∀ q ∈ s.players, q.id = p.id → q = p)
    (ha : activePlayer (commitPathRoster s.players) s.game.current_turn = some a)
    (hid : p.id = a.id) :
    (ticketCount p k = 0 →
      handleMove gameId p k toPos s noFailures =
        { outcome := MoveOutcome.insufficientTickets, store := s,
          selectionRestored := true }) ∧
    (0 < ticketCount p k →
      ∀ q ∈ (handleMove gameId p k toPos s noFailures).store.players, q.id = p.id →
        ticketCount q k = ticketCount p k - 1 ∧
        0 ≤ ticketCount q k ∧
        ∀ k2, k2 ≠ k → ticketCount q k2 = ticketCount p k2) := by
  have ha2 : activePlayer (commitPathRoster (fetchState s).latestPlayers)
      (fetchState s).latestGame.current_turn = some a := ha
  constructor
  · intro h0
    show handleMoveCommit gameId p k toPos (fetchState s) s noFailures = _
    unfold handleMoveCommit
    rw [ha2]
    simp [hid, h0]
  · intro ht q hq hqid
    have hw := handleMoveCommit_validated gameId p a k toPos (fetchState s) s
      noFailures ha2 hid ht
    have hplayers : (handleMove gameId p k toPos s noFailures).store.players =
        s.players.map fun q0 =>
          if q0.id = p.id then
            setTicket { q0 with current_position := toPos } k (ticketCount p k - 1)
          else q0 := by
      show (handleMoveCommit gameId p k toPos (fetchState s) s noFailures).store.players = _
      rw [hw]
      unfold commitWrites
      simp only [noFailures, Bool.false_eq_true, if_false, ite_false]
      split <;> rfl
    rw [hplayers] at hq
    rcases List.mem_map.mp hq with ⟨q0, hq0, rfl⟩
    by_cases h0 : q0.id = p.id
    · have hq0p : q0 = p := hsync q0 hq0 h0
      rw [hq0p]
      have hred :
          (if p.id = p.id then
              setTicket { p with current_position := toPos } k (ticketCount p k - 1)
            else p) =
            setTicket { p with current_position := toPos } k (ticketCount p k - 1) :=
        if_pos rfl
      rw [hred]
      refine ⟨?_, ?_, ?_⟩
      · rw [ticketCount_setTicket_same]
      · rw [ticketCount_setTicket_same]
        omega
      · intro k2 hk2
        rw [ticketCount_setTicket_ne _ _ _ _ hk2, ticketCount_setPosition]
    · rw [if_neg h0] at hqid
      exact absurd hqid h0

/-- C8 witness: player B at turn 1 holds zero black tickets; the attempt is
rejected with InsufficientTickets and the store is untouched. -/
theorem ticketDebit_safe_witness :
    (∀ q ∈ st1.players, q.id = playerB.id → q = playerB) ∧
    activePlayer (commitPathRoster st1.players) st1.game.current_turn = some playerB ∧
    ((ticketCount playerB TransportType.black = 0 →
        handleMove "g1" playerB TransportType.black 21 st1 noFailures =
          { outcome := MoveOutcome.insufficientTickets, store := st1,
            selectionRestored := true }) ∧
     (0 < ticketCount playerB TransportType.black →
        ∀ q ∈ (handleMove "g1" playerB TransportType.black 21 st1 noFailures).store.players,
          q.id = playerB.id →
            ticketCount q TransportType.black = ticketCount playerB TransportType.black - 1 ∧
            0 ≤ ticketCount q TransportType.black ∧
            ∀ k2, k2 ≠ TransportType.black → ticketCount q k2 = ticketCount playerB k2)) :=
  ⟨by decide, by decide,
   ticketDebit_safe "g1" playerB playerB TransportType.black 21 st1
     (by decide) (by decide) rfl⟩

/-- C9: through the UI the start-game operation succeeds exactly when the
roster has at least 2 players, the game is still waiting and the requester
is the designated mr_x_player; on success the games row goes from waiting
to in_progress; with fewer than 2 players the store is unchanged. -/
theorem startGame_guarded (gameId userId : String) (cachedGame : Game)
    (players : List Player) (s : StoreState)
    (hcache : cachedGame = s.game) (hgid : s.game.id = gameId) :
    ((startGameAction gameId userId cachedGame players s).outcome = StartOutcome.started ↔
      (2 ≤ players.length ∧ s.game.status = GameStatus.waiting ∧
        s.game.mr_x_player = some userId)) ∧
    ((startGameAction gameId userId cachedGame players s).outcome = StartOutcome.started →
      s.game.status = GameStatus.waiting ∧
      (startGameAction gameId userId cachedGame players s).store.game.status =
        GameStatus.in_progress) ∧
    (players.length < 2 → (startGameAction gameId userId cachedGame players s).store = s) := by
  subst hcache
  unfold startGameAction startButtonShown startGame
  by_cases hw : s.game.status = GameStatus.waiting <;>
    by_cases hx : s.game.mr_x_player = some userId <;>
      by_cases hn : players.length < 2 <;>
        simp [hw, hx, hn, hgid] <;> omega

/-- C9 witness: the waiting fixture game started by its mr_x_player with a
2-player roster. -/
theorem startGame_guarded_witness :
    gameWaiting = stWaiting.game ∧
    stWaiting.game.id = "g1" ∧
    (((startGameAction "g1" "uA" gameWaiting [playerA, playerB] stWaiting).outcome =
        StartOutcome.started ↔
        (2 ≤ ([playerA, playerB] : List Player).length ∧
         stWaiting.game.status = GameStatus.waiting ∧
         stWaiting.game.mr_x_player = some "uA")) ∧
     ((startGameAction "g1" "uA" gameWaiting [playerA, playerB] stWaiting).outcome =
        StartOutcome.started →
        stWaiting.game.status = GameStatus.waiting ∧
        (startGameAction "g1" "uA" gameWaiting [playerA, playerB]
          stWaiting).store.game.status = GameStatus.in_progress) ∧
     (([playerA, playerB] : List Player).length < 2 →
        (startGameAction "g1" "uA" gameWaiting [playerA, playerB] stWaiting).store =
          stWaiting)) :=
  ⟨rfl, rfl, startGame_guarded "g1" "uA" gameWaiting [playerA, playerB] stWaiting rfl rfl⟩

/-- C10: after validation passes, the results of the moves insert and the
players update are never inspected: the later writes are attempted
unconditionally, and the run reports success exactly when the games-table
update returns no error — even when the insert failed and the move log is
unchanged. -/
theorem commitSuccessIgnoresEarlierWrites (gameId : String) (p a : Player)
    (k : TransportType) (toPos : Nat) (f : FetchedState) (s : StoreState)
    (wf : WriteFailures)
    (ha : activePlayer (commitPathRoster f.latestPlayers) f.latestGame.current_turn = some a)
    (hid : p.id = a.id) (ht : 0 < ticketCount p k) (hgid : s.game.id = gameId) :
    ((handleMoveCommit gameId p k toPos f s wf).outcome = MoveOutcome.committed ↔
      wf.gameUpdateFails = false) ∧
    (wf.gameUpdateFails = false →
      (handleMoveCommit gameId p k toPos f s wf).store.game.current_turn =
        f.latestGame.current_turn + 1) ∧
    (wf.insertFails = true →
      (handleMoveCommit gameId p k toPos f s wf).store.moves = s.moves) := by
  rw [handleMoveCommit_validated gameId p a k toPos f s wf ha hid ht]
  obtain ⟨i, pu, gu⟩ := wf
  cases i <;> cases pu <;> cases gu <;> simp [commitWrites, hgid]

/-- C10 witness: both early writes fail and the games update succeeds; the
run still reports success and the turn advances, with the move log
unchanged. -/
theorem commitSuccessIgnoresEarlierWrites_witness :
    activePlayer (commitPathRoster (fetchState st4).latestPlayers)
        (fetchState st4).latestGame.current_turn = some playerA ∧
    playerA.id = playerA.id ∧
    0 < ticketCount playerA TransportType.taxi ∧
    st4.game.id = "g1" ∧
    (((handleMoveCommit "g1" playerA TransportType.taxi 15 (fetchState st4) st4
        c10Failures).outcome = MoveOutcome.committed ↔
        c10Failures.gameUpdateFails = false) ∧
     (c10Failures.gameUpdateFails = false →
        (handleMoveCommit "g1" playerA TransportType.taxi 15 (fetchState st4) st4
          c10Failures).store.game.current_turn =
          (fetchState st4).latestGame.current_turn + 1) ∧
     (c10Failures.insertFails = true →
        (handleMoveCommit "g1" playerA TransportType.taxi 15 (fetchState st4) st4
          c10Failures).store.moves = st4.moves)) :=
  ⟨by decide, rfl, by decide, rfl,
   commitSuccessIgnoresEarlierWrites "g1" playerA playerA TransportType.taxi 15
     (fetchState st4) st4 c10Failures (by decide) rfl (by decide) rfl⟩

end MrXChase
